import Mathlib

/-!
# FSR post-processing stage of Q2RTX (`src/refresh/vkpt/fsr.c`)

A shallow embedding of the orchestration code of the FidelityFX Super Resolution stage:
the activation predicate, the pipeline teardown, the command recording of the upscale (EASU)
and sharpen (RCAS) passes, and the final blit.

Conventions of the embedding.

* `cvar_t::integer` is a C `int`; it is embedded as `Int`.
* `VkExtent2D` holds two `uint32_t`; they are embedded as `Nat`, and the one place where the
  source does arithmetic on them (`(x + 15) / 16`) reduces modulo `2 ^ 32` explicitly.
* Vulkan handles (`VkPipeline`) are embedded as `Nat`, `0` being `VK_NULL_HANDLE`.
* A command buffer is the list of commands recorded into it; a function that records into
  `cmd_buf` returns the list of commands it appends.
* Calls of `vkDestroyPipeline` are observed as the list of handles handed to the device.
-/

namespace Q2RTX

/-! ## Types -/

/-- Result codes of the Vulkan API that the functions of `fsr.c` return. -/
inductive VkResult where
  | VK_SUCCESS
  | VK_NOT_READY
  | VK_ERROR_OUT_OF_HOST_MEMORY
  | VK_ERROR_OUT_OF_DEVICE_MEMORY
  | VK_ERROR_DEVICE_LOST
  deriving DecidableEq, Repr

/-- The pair of `uint32_t` of a `VkExtent2D`. -/
structure VkExtent2D where
  width : Nat
  height : Nat
  deriving DecidableEq, Repr

/-- The `integer` fields of the three console variables that `fsr.c` branches on:
`cvar_flt_fsr_enable->integer`, `cvar_flt_fsr_easu->integer`, `cvar_flt_fsr_rcas->integer`.
(`cvar_flt_fsr_sharpness->value` is a float read only by `vkpt_fsr_update_ubo`.) -/
structure Cvars where
  cvar_flt_fsr_enable : Int
  cvar_flt_fsr_easu : Int
  cvar_flt_fsr_rcas : Int
  deriving DecidableEq, Repr

/-- The fields of the global `qvk` that the modelled functions read. -/
structure Qvk where
  extent_render : VkExtent2D
  extent_unscaled : VkExtent2D
  deriving DecidableEq, Repr

/-- A pipeline handle; `0` is `VK_NULL_HANDLE`. -/
abbrev VkPipeline := Nat

/-- The null handle, which `vkDestroyPipeline` ignores. -/
def VK_NULL_HANDLE : VkPipeline := 0

/-! The anonymous enum of pipeline slots, lines 27-32. -/

/-- Slot of the upscale kernel. -/
def FSR_EASU : Nat := 0

/-- Slot of the sharpen kernel specialised for running after the upscale kernel. -/
def FSR_RCAS_AFTER_EASU : Nat := 1

/-- Slot of the sharpen kernel specialised for running on the TAAU image directly. -/
def FSR_RCAS_AFTER_TAAU : Nat := 2

/-- Number of slots of `pipeline_fsr`. -/
def FSR_NUM_PIPELINES : Nat := 3

/-- The file-static state: `pipeline_fsr[FSR_NUM_PIPELINES]` (slot to handle). -/
structure FsrState where
  pipeline_fsr : Nat → VkPipeline

/-! ## Activation predicate -/

/-- Embedding of `vkpt_fsr_is_enabled`, lines 128-142. -/
def vkpt_fsr_is_enabled (cv : Cvars) (qvk : Qvk) : Bool :=
  if cv.cvar_flt_fsr_enable = 0 then
    false
  else if cv.cvar_flt_fsr_enable = 1
      ∧ (qvk.extent_render.width ≥ qvk.extent_unscaled.width
        ∨ qvk.extent_render.height ≥ qvk.extent_unscaled.height) then
    false
  else
    decide (cv.cvar_flt_fsr_easu ≠ 0) || decide (cv.cvar_flt_fsr_rcas ≠ 0)

/-- Embedding of `vkpt_fsr_needs_upscale`, lines 144-147. The function reads the globals and
uses `cvar_flt_fsr_easu` only. -/
def vkpt_fsr_needs_upscale (cv : Cvars) (_qvk : Qvk) : Bool :=
  decide (cv.cvar_flt_fsr_easu = 0)

/-! ## Pipeline teardown -/

/-- What one call of `vkpt_fsr_destroy_pipelines` does: its return value, the file-static
state after it, and the handles it hands to `vkDestroyPipeline`, in call order. -/
structure DestroyOutcome where
  result : VkResult
  state : FsrState
  destroyed : List VkPipeline

/-- Embedding of `vkpt_fsr_destroy_pipelines`, lines 120-126. The loop hands
`pipeline_fsr[i]` to `vkDestroyPipeline` for `i = 0, 1, 2` and writes nothing back to the
array. -/
def vkpt_fsr_destroy_pipelines (s : FsrState) : DestroyOutcome :=
  let destroyed := (List.range FSR_NUM_PIPELINES).foldl
    (fun calls i => calls ++ [s.pipeline_fsr i]) []
  { result := VkResult.VK_SUCCESS, state := s, destroyed := destroyed }

/-! ## Command recording -/

/-- Modelled from the spec: the profiler identifiers `PROFILER_FSR`, `PROFILER_FSR_EASU` and
`PROFILER_FSR_RCAS` are declared outside `fsr.c`; the spec calls them an opaque
performance-marker begin/end pair. -/
inductive Profiler where
  | PROFILER_FSR
  | PROFILER_FSR_EASU
  | PROFILER_FSR_RCAS
  deriving DecidableEq, Repr

/-- Modelled from the spec: the image indices `VKPT_IMG_FSR_EASU_OUTPUT` and
`VKPT_IMG_FSR_RCAS_OUTPUT` are declared outside `fsr.c`; the spec's data model names the two
GPU images Upscale-output and Sharpen-output. A value stands for `qvk.images[index]`. -/
inductive VkptImg where
  | VKPT_IMG_FSR_EASU_OUTPUT
  | VKPT_IMG_FSR_RCAS_OUTPUT
  deriving DecidableEq, Repr

/-- Access masks of the Vulkan API (the two used by `BARRIER_COMPUTE` and two others). -/
inductive VkAccessFlagBits where
  | VK_ACCESS_SHADER_READ_BIT
  | VK_ACCESS_SHADER_WRITE_BIT
  | VK_ACCESS_TRANSFER_READ_BIT
  | VK_ACCESS_TRANSFER_WRITE_BIT
  deriving DecidableEq, Repr

/-- Image layouts of the Vulkan API (the one used by `BARRIER_COMPUTE` and three others). -/
inductive VkImageLayout where
  | VK_IMAGE_LAYOUT_UNDEFINED
  | VK_IMAGE_LAYOUT_GENERAL
  | VK_IMAGE_LAYOUT_TRANSFER_SRC_OPTIMAL
  | VK_IMAGE_LAYOUT_TRANSFER_DST_OPTIMAL
  deriving DecidableEq, Repr

/-- Image aspects of the Vulkan API. -/
inductive VkImageAspectFlagBits where
  | VK_IMAGE_ASPECT_COLOR_BIT
  | VK_IMAGE_ASPECT_DEPTH_BIT
  deriving DecidableEq, Repr

/-- The `VkImageSubresourceRange` of a barrier. -/
structure VkImageSubresourceRange where
  aspectMask : VkImageAspectFlagBits
  baseMipLevel : Nat
  levelCount : Nat
  baseArrayLayer : Nat
  layerCount : Nat
  deriving DecidableEq, Repr

/-- The fields of the image memory barrier that `BARRIER_COMPUTE` sets. -/
structure VkImageMemoryBarrier where
  image : VkptImg
  subresourceRange : VkImageSubresourceRange
  srcAccessMask : VkAccessFlagBits
  dstAccessMask : VkAccessFlagBits
  oldLayout : VkImageLayout
  newLayout : VkImageLayout
  deriving DecidableEq, Repr

/-- Commands that `fsr.c` records into a command buffer.

* `beginPerfMarker`, `endPerfMarker`: `BEGIN_PERF_MARKER`, `END_PERF_MARKER`.
* `bindPipeline slot`: `vkCmdBindPipeline(cmd_buf, VK_PIPELINE_BIND_POINT_COMPUTE,
  pipeline_fsr[slot])`; the command keeps the slot whose handle is bound.
* `bindDescriptorSets`: `vkCmdBindDescriptorSets` with `pipeline_layout_fsr` and the two
  descriptor sets `qvk.desc_set_ubo`, `qvk_get_current_desc_set_textures()`.
* `dispatch x y z`: `vkCmdDispatch(cmd_buf, x, y, z)`.
* `imageBarrier b`: the pipeline barrier with the single image memory barrier `b`. -/
inductive Cmd where
  | beginPerfMarker (p : Profiler)
  | endPerfMarker (p : Profiler)
  | bindPipeline (slot : Nat)
  | bindDescriptorSets
  | dispatch (x y z : Nat)
  | imageBarrier (b : VkImageMemoryBarrier)
  deriving DecidableEq, Repr

/-- Modelled from the spec: the inner `IMAGE_BARRIER` of the `BARRIER_COMPUTE` of lines
158-175 is declared outside `fsr.c`; by the spec it inserts a barrier on the image, which is
embedded as one recorded command carrying the fields that `BARRIER_COMPUTE` sets. -/
def BARRIER_COMPUTE (img : VkptImg) : Cmd :=
  Cmd.imageBarrier
    { image := img
      subresourceRange :=
        { aspectMask := VkImageAspectFlagBits.VK_IMAGE_ASPECT_COLOR_BIT
          baseMipLevel := 0
          levelCount := 1
          baseArrayLayer := 0
          layerCount := 1 }
      srcAccessMask := VkAccessFlagBits.VK_ACCESS_SHADER_WRITE_BIT
      dstAccessMask := VkAccessFlagBits.VK_ACCESS_SHADER_READ_BIT
      oldLayout := VkImageLayout.VK_IMAGE_LAYOUT_GENERAL
      newLayout := VkImageLayout.VK_IMAGE_LAYOUT_GENERAL }

/-- Addition of two `uint32_t`. -/
def u32_add (a b : Nat) : Nat := (a + b) % 4294967296

/-- Embedding of `vkpt_fsr_easu`, lines 177-200: the commands it records. -/
def vkpt_fsr_easu (qvk : Qvk) : List Cmd :=
  let dispatch_size := qvk.extent_unscaled
  [ Cmd.beginPerfMarker Profiler.PROFILER_FSR_EASU,
    Cmd.bindPipeline FSR_EASU,
    Cmd.bindDescriptorSets,
    Cmd.dispatch (u32_add dispatch_size.width 15 / 16) (u32_add dispatch_size.height 15 / 16) 1,
    BARRIER_COMPUTE VkptImg.VKPT_IMG_FSR_EASU_OUTPUT,
    Cmd.endPerfMarker Profiler.PROFILER_FSR_EASU ]

/-- Embedding of `vkpt_fsr_rcas`, lines 202-225: the commands it records. -/
def vkpt_fsr_rcas (cv : Cvars) (qvk : Qvk) : List Cmd :=
  let dispatch_size := qvk.extent_unscaled
  [ Cmd.beginPerfMarker Profiler.PROFILER_FSR_RCAS,
    Cmd.bindPipeline
      (if cv.cvar_flt_fsr_easu ≠ 0 then FSR_RCAS_AFTER_EASU else FSR_RCAS_AFTER_TAAU),
    Cmd.bindDescriptorSets,
    Cmd.dispatch (u32_add dispatch_size.width 15 / 16) (u32_add dispatch_size.height 15 / 16) 1,
    BARRIER_COMPUTE VkptImg.VKPT_IMG_FSR_RCAS_OUTPUT,
    Cmd.endPerfMarker Profiler.PROFILER_FSR_RCAS ]

/-- Embedding of `vkpt_fsr_do`, lines 227-239: the return value and the commands recorded. -/
def vkpt_fsr_do (cv : Cvars) (qvk : Qvk) : VkResult × List Cmd :=
  let c0 := [Cmd.beginPerfMarker Profiler.PROFILER_FSR]
  let c1 := if cv.cvar_flt_fsr_easu ≠ 0 then c0 ++ vkpt_fsr_easu qvk else c0
  let c2 := if cv.cvar_flt_fsr_rcas ≠ 0 then c1 ++ vkpt_fsr_rcas cv qvk else c1
  (VkResult.VK_SUCCESS, c2 ++ [Cmd.endPerfMarker Profiler.PROFILER_FSR])

/-- Embedding of `vkpt_fsr_final_blit`, lines 241-245. The external `vkpt_final_blit_simple`
is the parameter `blit`; it receives `qvk.images[output_image]` and `qvk.extent_unscaled`,
and its result (of whatever type) is returned. -/
def vkpt_fsr_final_blit {α : Type} (blit : VkptImg → VkExtent2D → α) (cv : Cvars) (qvk : Qvk) :
    α :=
  let output_image :=
    if cv.cvar_flt_fsr_rcas ≠ 0 then VkptImg.VKPT_IMG_FSR_RCAS_OUTPUT
    else VkptImg.VKPT_IMG_FSR_EASU_OUTPUT
  blit output_image qvk.extent_unscaled

/-! ## Reading a recorded command sequence -/

/-- The slot bound by the last `bindPipeline` of a command sequence, if any. -/
def boundPipeline (tr : List Cmd) : Option Nat :=
  tr.foldl (fun b c => match c with
    | Cmd.bindPipeline slot => some slot
    | _ => b) none

/-- Whether a command is a `vkCmdDispatch`. -/
def isDispatch : Cmd → Bool
  | Cmd.dispatch _ _ _ => true
  | _ => false

/-- The pipeline slot that the command at position `i` dispatches: `some slot` when that
command is a dispatch and `slot` is the pipeline bound by the commands before it. -/
def dispatchedPipeline (tr : List Cmd) (i : Nat) : Option Nat :=
  match tr[i]? with
  | some c => if isDispatch c then boundPipeline (tr.take i) else none
  | none => none

/-- The command at position `i` dispatches the upscale kernel. -/
def upscaleDispatchAt (tr : List Cmd) (i : Nat) : Prop :=
  dispatchedPipeline tr i = some FSR_EASU

/-- The command at position `i` dispatches one of the two sharpen kernels. -/
def sharpenDispatchAt (tr : List Cmd) (i : Nat) : Prop :=
  dispatchedPipeline tr i = some FSR_RCAS_AFTER_EASU
    ∨ dispatchedPipeline tr i = some FSR_RCAS_AFTER_TAAU

instance (tr : List Cmd) (i : Nat) : Decidable (upscaleDispatchAt tr i) := by
  unfold upscaleDispatchAt; infer_instance

instance (tr : List Cmd) (i : Nat) : Decidable (sharpenDispatchAt tr i) := by
  unfold sharpenDispatchAt; infer_instance

/-- Whether a command is the `BEGIN_PERF_MARKER` of `p`. -/
def isBegin (p : Profiler) : Cmd → Bool
  | Cmd.beginPerfMarker q => decide (q = p)
  | _ => false

/-- Whether a command is the `END_PERF_MARKER` of `p`. -/
def isEnd (p : Profiler) : Cmd → Bool
  | Cmd.endPerfMarker q => decide (q = p)
  | _ => false

/-- Position `i` lies inside the stage delimited by the markers of `p`: before it, more
markers of `p` were begun than ended. -/
def inStage (tr : List Cmd) (p : Profiler) (i : Nat) : Prop :=
  (tr.take i).countP (isEnd p) < (tr.take i).countP (isBegin p)

instance (tr : List Cmd) (p : Profiler) (i : Nat) : Decidable (inStage tr p i) := by
  unfold inStage; infer_instance

/-- The command at position `i` is a barrier from shader writes to shader reads on `img`
that keeps the layout `VK_IMAGE_LAYOUT_GENERAL`. -/
def writeReadBarrierAt (tr : List Cmd) (i : Nat) (img : VkptImg) : Prop :=
  ∃ b, tr[i]? = some (Cmd.imageBarrier b) ∧ b.image = img
    ∧ b.srcAccessMask = VkAccessFlagBits.VK_ACCESS_SHADER_WRITE_BIT
    ∧ b.dstAccessMask = VkAccessFlagBits.VK_ACCESS_SHADER_READ_BIT
    ∧ b.oldLayout = VkImageLayout.VK_IMAGE_LAYOUT_GENERAL
    ∧ b.newLayout = VkImageLayout.VK_IMAGE_LAYOUT_GENERAL

/-- The commands that one call of `vkpt_fsr_do` records. -/
def recorded (cv : Cvars) (qvk : Qvk) : List Cmd :=
  (vkpt_fsr_do cv qvk).2

/-- Modelled from the spec: which image a kernel writes is fixed by the shaders, which are not
part of `fsr.c`; by the spec the upscale kernel writes the upscale-output image and both
sharpen kernels write the sharpen-output image. -/
def kernelOutput (slot : Nat) : Option VkptImg :=
  if slot = FSR_EASU then some VkptImg.VKPT_IMG_FSR_EASU_OUTPUT
  else if slot = FSR_RCAS_AFTER_EASU ∨ slot = FSR_RCAS_AFTER_TAAU then
    some VkptImg.VKPT_IMG_FSR_RCAS_OUTPUT
  else none

/-- The grids of the dispatches of a command sequence, in order. -/
def dispatchGrids (tr : List Cmd) : List (Nat × Nat × Nat) :=
  tr.filterMap fun c => match c with
    | Cmd.dispatch x y z => some (x, y, z)
    | _ => none

/-! ## Activation predicate: theorems -/

/-- Characterisation of `vkpt_fsr_is_enabled` used by the theorems below. -/
theorem is_enabled_eq_true_iff (cv : Cvars) (qvk : Qvk) :
    vkpt_fsr_is_enabled cv qvk = true ↔
      cv.cvar_flt_fsr_enable ≠ 0
      ∧ ¬ (cv.cvar_flt_fsr_enable = 1
          ∧ (qvk.extent_render.width ≥ qvk.extent_unscaled.width
            ∨ qvk.extent_render.height ≥ qvk.extent_unscaled.height))
      ∧ (cv.cvar_flt_fsr_easu ≠ 0 ∨ cv.cvar_flt_fsr_rcas ≠ 0) := by
  unfold vkpt_fsr_is_enabled
  by_cases h0 : cv.cvar_flt_fsr_enable = 0
  · simp [h0]
  · by_cases h1 : cv.cvar_flt_fsr_enable = 1
      ∧ (qvk.extent_render.width ≥ qvk.extent_unscaled.width
        ∨ qvk.extent_render.height ≥ qvk.extent_unscaled.height)
    · rw [if_neg h0, if_pos h1]
      simp [h1]
    · rw [if_neg h0, if_neg h1]
      simp only [Bool.or_eq_true, decide_eq_true_eq]
      exact ⟨fun h => ⟨h0, h1, h⟩, fun h => h.2.2⟩

/-- Claim C1 as stated fails: with enable = 1, both sub-stages on, render 1920 x 720 and
display 1920 x 1080, the render extent is not at least the display extent in both
dimensions, yet `vkpt_fsr_is_enabled` returns false. -/
theorem C1_counterexample :
    ¬ ∀ (cv : Cvars) (qvk : Qvk),
      vkpt_fsr_is_enabled cv qvk = true ↔
        cv.cvar_flt_fsr_enable ≠ 0
        ∧ ¬ (cv.cvar_flt_fsr_enable = 1
            ∧ qvk.extent_render.width ≥ qvk.extent_unscaled.width
            ∧ qvk.extent_render.height ≥ qvk.extent_unscaled.height)
        ∧ (cv.cvar_flt_fsr_easu ≠ 0 ∨ cv.cvar_flt_fsr_rcas ≠ 0) := by
  intro h
  have h1 := h ⟨1, 1, 1⟩ ⟨⟨1920, 720⟩, ⟨1920, 1080⟩⟩
  revert h1
  decide

/-- Claim C1, amended: `vkpt_fsr_is_enabled` returns true exactly when enable is not 0, and it
is not the case that enable is 1 with render width at least display width OR render height
at least display height, and at least one of upscale-enabled or sharpen-enabled is non-zero.
In particular, under enable = 1 with a sub-stage enabled it returns false exactly when the
render extent is at least the display extent in at least one dimension. -/
theorem C1_is_enabled_iff :
    (∀ (cv : Cvars) (qvk : Qvk),
      vkpt_fsr_is_enabled cv qvk = true ↔
        cv.cvar_flt_fsr_enable ≠ 0
        ∧ ¬ (cv.cvar_flt_fsr_enable = 1
            ∧ (qvk.extent_render.width ≥ qvk.extent_unscaled.width
              ∨ qvk.extent_render.height ≥ qvk.extent_unscaled.height))
        ∧ (cv.cvar_flt_fsr_easu ≠ 0 ∨ cv.cvar_flt_fsr_rcas ≠ 0))
    ∧ (∀ (cv : Cvars) (qvk : Qvk),
      cv.cvar_flt_fsr_enable = 1 →
      (cv.cvar_flt_fsr_easu ≠ 0 ∨ cv.cvar_flt_fsr_rcas ≠ 0) →
      (vkpt_fsr_is_enabled cv qvk = false ↔
        (qvk.extent_render.width ≥ qvk.extent_unscaled.width
          ∨ qvk.extent_render.height ≥ qvk.extent_unscaled.height))) := by
  refine ⟨is_enabled_eq_true_iff, ?_⟩
  intro cv qvk he hs
  rw [← Bool.not_eq_true, is_enabled_eq_true_iff]
  constructor
  · intro h
    by_contra hr
    exact h ⟨by rw [he]; decide, fun hh => hr hh.2, hs⟩
  · intro hr h
    exact h.2.1 ⟨he, hr⟩

/-- Witness for C1 (amended): enable = 1, upscale on, render 1280 x 1080, display
1920 x 1080: the heights are equal, so the stage is off. -/
theorem C1_is_enabled_iff_witness :
    vkpt_fsr_is_enabled ⟨1, 1, 0⟩ ⟨⟨1280, 1080⟩, ⟨1920, 1080⟩⟩ = false :=
  (C1_is_enabled_iff.2 ⟨1, 1, 0⟩ ⟨⟨1280, 1080⟩, ⟨1920, 1080⟩⟩ rfl (Or.inl (by decide))).2
    (Or.inr (by decide))

/-- Claim C6: with enable = 1 and a render extent equal to the display extent,
`vkpt_fsr_is_enabled` returns false, whatever upscale-enabled and sharpen-enabled are. -/
theorem C6_is_enabled_false_of_render_eq_display (cv : Cvars) (qvk : Qvk)
    (he : cv.cvar_flt_fsr_enable = 1)
    (hw : qvk.extent_render.width = qvk.extent_unscaled.width)
    (hh : qvk.extent_render.height = qvk.extent_unscaled.height) :
    vkpt_fsr_is_enabled cv qvk = false := by
  rw [← Bool.not_eq_true, is_enabled_eq_true_iff]
  intro h
  have hge : qvk.extent_render.width ≥ qvk.extent_unscaled.width
      ∧ qvk.extent_render.height ≥ qvk.extent_unscaled.height := ⟨hw.ge, hh.ge⟩
  exact h.2.1 ⟨he, Or.inl hge.1⟩

/-- Witness for C6: render = display = 1920 x 1080 under enable = 1. -/
theorem C6_is_enabled_false_of_render_eq_display_witness :
    vkpt_fsr_is_enabled ⟨1, 1, 1⟩ ⟨⟨1920, 1080⟩, ⟨1920, 1080⟩⟩ = false :=
  C6_is_enabled_false_of_render_eq_display ⟨1, 1, 1⟩ ⟨⟨1920, 1080⟩, ⟨1920, 1080⟩⟩ rfl rfl rfl

/-! ## Shape of the recorded command sequence -/

/-- Where `vkpt_fsr_do` dispatches, and with which pipeline bound: the upscale kernel at
position 4 when upscale-enabled is non-zero, and a sharpen kernel at position 10 (after an
upscale pass) or 4 (without one) when sharpen-enabled is non-zero. -/
theorem dispatchedPipeline_recorded (cv : Cvars) (qvk : Qvk) (i : Nat) :
    dispatchedPipeline (recorded cv qvk) i =
      if cv.cvar_flt_fsr_easu ≠ 0 ∧ i = 4 then some FSR_EASU
      else if cv.cvar_flt_fsr_rcas ≠ 0 ∧ i = (if cv.cvar_flt_fsr_easu ≠ 0 then 10 else 4) then
        some (if cv.cvar_flt_fsr_easu ≠ 0 then FSR_RCAS_AFTER_EASU else FSR_RCAS_AFTER_TAAU)
      else none := by
  by_cases he : cv.cvar_flt_fsr_easu = 0 <;> by_cases hr : cv.cvar_flt_fsr_rcas = 0 <;>
    simp only [recorded, vkpt_fsr_do, vkpt_fsr_easu, vkpt_fsr_rcas, he, hr, ne_eq,
      not_true_eq_false, not_false_eq_true, if_true, if_false, List.cons_append,
      List.nil_append, BARRIER_COMPUTE] <;>
    rcases i with _|_|_|_|_|_|_|_|_|_|_|_|_|_|i <;>
    simp [dispatchedPipeline, isDispatch, boundPipeline]

/-- Which commands of `vkpt_fsr_do` are dispatches. -/
theorem isDispatch_recorded (cv : Cvars) (qvk : Qvk) (i : Nat) (c : Cmd)
    (hc : (recorded cv qvk)[i]? = some c) :
    isDispatch c = true ↔
      (cv.cvar_flt_fsr_easu ≠ 0 ∧ i = 4)
      ∨ (cv.cvar_flt_fsr_rcas ≠ 0 ∧ i = (if cv.cvar_flt_fsr_easu ≠ 0 then 10 else 4)) := by
  revert hc
  by_cases he : cv.cvar_flt_fsr_easu = 0 <;> by_cases hr : cv.cvar_flt_fsr_rcas = 0 <;>
    simp only [recorded, vkpt_fsr_do, vkpt_fsr_easu, vkpt_fsr_rcas, he, hr, ne_eq,
      not_true_eq_false, not_false_eq_true, if_true, if_false, List.cons_append,
      List.nil_append, BARRIER_COMPUTE] <;>
    rcases i with _|_|_|_|_|_|_|_|_|_|_|_|_|_|i <;>
    simp <;> intro hc <;> subst hc <;> simp [isDispatch]

/-- The barrier that follows each pass of `vkpt_fsr_do`. -/
theorem writeReadBarrierAt_recorded (cv : Cvars) (qvk : Qvk) :
    (cv.cvar_flt_fsr_easu ≠ 0 →
      writeReadBarrierAt (recorded cv qvk) 5 VkptImg.VKPT_IMG_FSR_EASU_OUTPUT)
    ∧ (cv.cvar_flt_fsr_rcas ≠ 0 →
      writeReadBarrierAt (recorded cv qvk) (if cv.cvar_flt_fsr_easu ≠ 0 then 11 else 5)
        VkptImg.VKPT_IMG_FSR_RCAS_OUTPUT) := by
  by_cases he : cv.cvar_flt_fsr_easu = 0 <;> by_cases hr : cv.cvar_flt_fsr_rcas = 0 <;>
    simp [recorded, vkpt_fsr_do, vkpt_fsr_easu, vkpt_fsr_rcas, he, hr, BARRIER_COMPUTE,
      writeReadBarrierAt]

/-- Where the sharpen stage of `vkpt_fsr_do` binds its pipeline, and which one. -/
theorem sharpen_bind_recorded (cv : Cvars) (qvk : Qvk) (i slot : Nat) :
    ((recorded cv qvk)[i]? = some (Cmd.bindPipeline slot)
        ∧ inStage (recorded cv qvk) Profiler.PROFILER_FSR_RCAS i) ↔
      (cv.cvar_flt_fsr_rcas ≠ 0
        ∧ i = (if cv.cvar_flt_fsr_easu ≠ 0 then 8 else 2)
        ∧ slot = (if cv.cvar_flt_fsr_easu ≠ 0 then FSR_RCAS_AFTER_EASU
            else FSR_RCAS_AFTER_TAAU)) := by
  by_cases he : cv.cvar_flt_fsr_easu = 0 <;> by_cases hr : cv.cvar_flt_fsr_rcas = 0 <;>
    simp only [recorded, vkpt_fsr_do, vkpt_fsr_easu, vkpt_fsr_rcas, he, hr, ne_eq,
      not_true_eq_false, not_false_eq_true, if_true, if_false, List.cons_append,
      List.nil_append, BARRIER_COMPUTE] <;>
    rcases i with _|_|_|_|_|_|_|_|_|_|_|_|_|_|i <;>
    simp [inStage, isBegin, isEnd, List.countP_cons, eq_comm]

/-- The positions at which `vkpt_fsr_do` dispatches the upscale kernel. -/
theorem upscaleDispatchAt_recorded (cv : Cvars) (qvk : Qvk) (i : Nat) :
    upscaleDispatchAt (recorded cv qvk) i ↔ cv.cvar_flt_fsr_easu ≠ 0 ∧ i = 4 := by
  unfold upscaleDispatchAt
  rw [dispatchedPipeline_recorded]
  by_cases he : cv.cvar_flt_fsr_easu = 0 <;> by_cases hr : cv.cvar_flt_fsr_rcas = 0 <;>
    by_cases h4 : i = 4 <;> by_cases h10 : i = 10 <;>
    simp [he, hr, h4, h10, FSR_EASU, FSR_RCAS_AFTER_EASU, FSR_RCAS_AFTER_TAAU]

/-- The positions at which `vkpt_fsr_do` dispatches a sharpen kernel. -/
theorem sharpenDispatchAt_recorded (cv : Cvars) (qvk : Qvk) (i : Nat) :
    sharpenDispatchAt (recorded cv qvk) i ↔
      cv.cvar_flt_fsr_rcas ≠ 0 ∧ i = (if cv.cvar_flt_fsr_easu ≠ 0 then 10 else 4) := by
  unfold sharpenDispatchAt
  rw [dispatchedPipeline_recorded]
  by_cases he : cv.cvar_flt_fsr_easu = 0 <;> by_cases hr : cv.cvar_flt_fsr_rcas = 0 <;>
    by_cases h4 : i = 4 <;> by_cases h10 : i = 10 <;>
    simp [he, hr, h4, h10, FSR_EASU, FSR_RCAS_AFTER_EASU, FSR_RCAS_AFTER_TAAU]

/-! ## Command recording: theorems -/

/-- Claim C3: the sharpen stage of `vkpt_fsr_do` binds a pipeline exactly when sharpen-enabled
is non-zero, and the pipeline it binds is `FSR_RCAS_AFTER_EASU` if and only if the upscale
kernel was dispatched earlier in the same command sequence, `FSR_RCAS_AFTER_TAAU` if and only
if no upscale kernel was dispatched earlier, and never `FSR_EASU`. -/
theorem C3_sharpen_variant_matches_upscale (cv : Cvars) (qvk : Qvk) :
    ((∃ i slot, (recorded cv qvk)[i]? = some (Cmd.bindPipeline slot)
        ∧ inStage (recorded cv qvk) Profiler.PROFILER_FSR_RCAS i)
      ↔ cv.cvar_flt_fsr_rcas ≠ 0)
    ∧ ∀ i slot, (recorded cv qvk)[i]? = some (Cmd.bindPipeline slot) →
        inStage (recorded cv qvk) Profiler.PROFILER_FSR_RCAS i →
        (slot = FSR_RCAS_AFTER_EASU ↔ ∃ j, j < i ∧ upscaleDispatchAt (recorded cv qvk) j)
        ∧ (slot = FSR_RCAS_AFTER_TAAU ↔ ¬ ∃ j, j < i ∧ upscaleDispatchAt (recorded cv qvk) j)
        ∧ slot ≠ FSR_EASU := by
  constructor
  · constructor
    · rintro ⟨i, slot, h1, h2⟩
      exact ((sharpen_bind_recorded cv qvk i slot).1 ⟨h1, h2⟩).1
    · intro hr
      exact ⟨_, _, (sharpen_bind_recorded cv qvk _ _).2 ⟨hr, rfl, rfl⟩⟩
  · intro i slot h1 h2
    obtain ⟨_, hi, hs⟩ := (sharpen_bind_recorded cv qvk i slot).1 ⟨h1, h2⟩
    by_cases he : cv.cvar_flt_fsr_easu = 0
    · have hno : ¬ ∃ j, j < i ∧ upscaleDispatchAt (recorded cv qvk) j := by
        rintro ⟨j, _, hj⟩
        exact ((upscaleDispatchAt_recorded cv qvk j).1 hj).1 he
      simp only [he, ne_eq, not_true_eq_false, if_false] at hs
      subst hs
      simp [hno, FSR_EASU, FSR_RCAS_AFTER_EASU, FSR_RCAS_AFTER_TAAU]
    · have hyes : ∃ j, j < i ∧ upscaleDispatchAt (recorded cv qvk) j := by
        refine ⟨4, ?_, (upscaleDispatchAt_recorded cv qvk 4).2 ⟨he, rfl⟩⟩
        simp only [he, ne_eq, not_false_eq_true, if_true] at hi
        omega
      simp only [he, ne_eq, not_false_eq_true, if_true] at hs
      subst hs
      simp [hyes, FSR_EASU, FSR_RCAS_AFTER_EASU, FSR_RCAS_AFTER_TAAU]

/-- Witness for C3: with upscale and sharpen on, the bind at position 8 lies in the sharpen
stage and binds `FSR_RCAS_AFTER_EASU`, and the upscale kernel was dispatched before it. -/
theorem C3_sharpen_variant_matches_upscale_witness :
    ∃ j, j < 8 ∧ upscaleDispatchAt (recorded ⟨1, 1, 1⟩ ⟨⟨1280, 720⟩, ⟨1920, 1080⟩⟩) j :=
  (((C3_sharpen_variant_matches_upscale ⟨1, 1, 1⟩ ⟨⟨1280, 720⟩, ⟨1920, 1080⟩⟩).2
    8 FSR_RCAS_AFTER_EASU (by decide) (by decide)).1).1 rfl

/-- Claim C4: the commands recorded by `vkpt_fsr_do` contain an upscale dispatch iff
upscale-enabled is non-zero and a sharpen dispatch iff sharpen-enabled is non-zero; every
dispatch is one of the two; an upscale dispatch comes before a sharpen dispatch; and the
command right after each dispatch is a shader-write to shader-read barrier, layout GENERAL to
GENERAL, on `VKPT_IMG_FSR_EASU_OUTPUT` after the upscale dispatch and on
`VKPT_IMG_FSR_RCAS_OUTPUT` after the sharpen dispatch. -/
theorem C4_dispatch_order_and_barriers (cv : Cvars) (qvk : Qvk) :
    ((∃ i, upscaleDispatchAt (recorded cv qvk) i) ↔ cv.cvar_flt_fsr_easu ≠ 0)
    ∧ ((∃ i, sharpenDispatchAt (recorded cv qvk) i) ↔ cv.cvar_flt_fsr_rcas ≠ 0)
    ∧ (∀ i c, (recorded cv qvk)[i]? = some c → isDispatch c = true →
        upscaleDispatchAt (recorded cv qvk) i ∨ sharpenDispatchAt (recorded cv qvk) i)
    ∧ (∀ i j, upscaleDispatchAt (recorded cv qvk) i → sharpenDispatchAt (recorded cv qvk) j →
        i < j)
    ∧ (∀ i, upscaleDispatchAt (recorded cv qvk) i →
        writeReadBarrierAt (recorded cv qvk) (i + 1) VkptImg.VKPT_IMG_FSR_EASU_OUTPUT)
    ∧ (∀ i, sharpenDispatchAt (recorded cv qvk) i →
        writeReadBarrierAt (recorded cv qvk) (i + 1) VkptImg.VKPT_IMG_FSR_RCAS_OUTPUT) := by
  refine ⟨?_, ?_, ?_, ?_, ?_, ?_⟩
  · constructor
    · rintro ⟨i, hi⟩
      exact ((upscaleDispatchAt_recorded cv qvk i).1 hi).1
    · intro he
      exact ⟨4, (upscaleDispatchAt_recorded cv qvk 4).2 ⟨he, rfl⟩⟩
  · constructor
    · rintro ⟨i, hi⟩
      exact ((sharpenDispatchAt_recorded cv qvk i).1 hi).1
    · intro hr
      exact ⟨_, (sharpenDispatchAt_recorded cv qvk _).2 ⟨hr, rfl⟩⟩
  · intro i c hc hd
    rw [upscaleDispatchAt_recorded, sharpenDispatchAt_recorded]
    exact (isDispatch_recorded cv qvk i c hc).1 hd
  · intro i j hi hj
    obtain ⟨he, hi4⟩ := (upscaleDispatchAt_recorded cv qvk i).1 hi
    obtain ⟨_, hj10⟩ := (sharpenDispatchAt_recorded cv qvk j).1 hj
    rw [if_pos he] at hj10
    omega
  · intro i hi
    obtain ⟨he, hi4⟩ := (upscaleDispatchAt_recorded cv qvk i).1 hi
    subst hi4
    exact (writeReadBarrierAt_recorded cv qvk).1 he
  · intro i hi
    obtain ⟨hr, hi4⟩ := (sharpenDispatchAt_recorded cv qvk i).1 hi
    subst hi4
    have h := (writeReadBarrierAt_recorded cv qvk).2 hr
    by_cases he : cv.cvar_flt_fsr_easu = 0
    · simpa [he] using h
    · simpa [he] using h

/-- Witness for C4: with both passes on, position 4 is the upscale dispatch and position 5
is the barrier on `VKPT_IMG_FSR_EASU_OUTPUT`. -/
theorem C4_dispatch_order_and_barriers_witness :
    upscaleDispatchAt (recorded ⟨1, 1, 1⟩ ⟨⟨1280, 720⟩, ⟨1920, 1080⟩⟩) 4
    ∧ writeReadBarrierAt (recorded ⟨1, 1, 1⟩ ⟨⟨1280, 720⟩, ⟨1920, 1080⟩⟩) (4 + 1)
        VkptImg.VKPT_IMG_FSR_EASU_OUTPUT :=
  ⟨by decide,
    (C4_dispatch_order_and_barriers ⟨1, 1, 1⟩ ⟨⟨1280, 720⟩, ⟨1920, 1080⟩⟩).2.2.2.2.1 4
      (by decide)⟩

/-- The code's `(x + 15) / 16` is the ceiling of `x / 16` as long as `x + 15` does not wrap. -/
theorem u32_add_15_div_16 (x : Nat) (hx : x + 15 < 4294967296) :
    u32_add x 15 / 16 = ⌈(x : ℚ) / 16⌉₊ := by
  unfold u32_add
  rw [Nat.mod_eq_of_lt hx]
  apply le_antisymm
  · have h1 : (x : ℚ) / 16 ≤ (⌈(x : ℚ) / 16⌉₊ : ℚ) := Nat.le_ceil _
    have h2 : (x : ℚ) ≤ ((16 * ⌈(x : ℚ) / 16⌉₊ : ℕ) : ℚ) := by
      push_cast
      linarith
    have h3 : x ≤ 16 * ⌈(x : ℚ) / 16⌉₊ := by exact_mod_cast h2
    omega
  · apply Nat.ceil_le.2
    have h1 : x ≤ 16 * ((x + 15) / 16) := by omega
    have h2 : (x : ℚ) ≤ ((16 * ((x + 15) / 16) : ℕ) : ℚ) := by exact_mod_cast h1
    push_cast at h2
    linarith

/-- Claim C5 as stated fails: for the display extent 4294967295 x 1080, a pair of unsigned
32-bit integers, `x + 15` wraps to 14 and the upscale stage dispatches the grid (0, 68, 1),
while the ceiling of 4294967295 / 16 is 268435456. -/
theorem C5_counterexample :
    ¬ ∀ (cv : Cvars) (qvk : Qvk),
      qvk.extent_unscaled.width < 4294967296 → qvk.extent_unscaled.height < 4294967296 →
      dispatchGrids (vkpt_fsr_easu qvk)
          = [(⌈(qvk.extent_unscaled.width : ℚ) / 16⌉₊,
              ⌈(qvk.extent_unscaled.height : ℚ) / 16⌉₊, 1)]
      ∧ dispatchGrids (vkpt_fsr_rcas cv qvk)
          = [(⌈(qvk.extent_unscaled.width : ℚ) / 16⌉₊,
              ⌈(qvk.extent_unscaled.height : ℚ) / 16⌉₊, 1)] := by
  intro h
  have h1 := (h ⟨1, 1, 1⟩ ⟨⟨1280, 720⟩, ⟨4294967295, 1080⟩⟩ (by decide) (by decide)).1
  have h2 : dispatchGrids (vkpt_fsr_easu ⟨⟨1280, 720⟩, ⟨4294967295, 1080⟩⟩) = [(0, 68, 1)] := by
    decide
  rw [h2] at h1
  have h3 : (0 : Nat) = ⌈((4294967295 : Nat) : ℚ) / 16⌉₊ := by
    simpa using congrArg (fun l => (l.map Prod.fst).headD 7) h1
  have h4 : ((4294967295 : Nat) : ℚ) / 16 ≤ ((0 : Nat) : ℚ) := by
    rw [h3]
    exact Nat.le_ceil _
  norm_num at h4

/-- Claim C5, amended: for every display extent whose width and height are at most
4294967280 (so that `x + 15` does not wrap in 32 bits), both the upscale and the sharpen stage
record exactly one dispatch, with the grid (ceil(width/16), ceil(height/16), 1). -/
theorem C5_dispatch_grid (cv : Cvars) (qvk : Qvk)
    (hw : qvk.extent_unscaled.width ≤ 4294967280)
    (hh : qvk.extent_unscaled.height ≤ 4294967280) :
    dispatchGrids (vkpt_fsr_easu qvk)
        = [(⌈(qvk.extent_unscaled.width : ℚ) / 16⌉₊,
            ⌈(qvk.extent_unscaled.height : ℚ) / 16⌉₊, 1)]
    ∧ dispatchGrids (vkpt_fsr_rcas cv qvk)
        = [(⌈(qvk.extent_unscaled.width : ℚ) / 16⌉₊,
            ⌈(qvk.extent_unscaled.height : ℚ) / 16⌉₊, 1)] := by
  rw [← u32_add_15_div_16 _ (by omega : qvk.extent_unscaled.width + 15 < 4294967296),
    ← u32_add_15_div_16 _ (by omega : qvk.extent_unscaled.height + 15 < 4294967296)]
  constructor <;> simp [dispatchGrids, vkpt_fsr_easu, vkpt_fsr_rcas, BARRIER_COMPUTE]

/-- Witness for C5 (amended): for the display extent 1920 x 1080 both stages dispatch the
grid (120, 68, 1). -/
theorem C5_dispatch_grid_witness :
    dispatchGrids (vkpt_fsr_easu ⟨⟨1280, 720⟩, ⟨1920, 1080⟩⟩) = [(120, 68, 1)]
    ∧ dispatchGrids (vkpt_fsr_rcas ⟨1, 1, 1⟩ ⟨⟨1280, 720⟩, ⟨1920, 1080⟩⟩) = [(120, 68, 1)]
    ∧ dispatchGrids (vkpt_fsr_easu ⟨⟨1280, 720⟩, ⟨1920, 1080⟩⟩)
        = [(⌈((1920 : Nat) : ℚ) / 16⌉₊, ⌈((1080 : Nat) : ℚ) / 16⌉₊, 1)] :=
  ⟨by decide, by decide,
    (C5_dispatch_grid ⟨1, 1, 1⟩ ⟨⟨1280, 720⟩, ⟨1920, 1080⟩⟩ (by decide) (by decide)).1⟩

/-! ## Activation, dispatch and final blit together -/

/-- Claim C7: with enable = 1 and a render extent strictly smaller than the display extent in
both dimensions, `vkpt_fsr_is_enabled` returns true whenever upscale-enabled or
sharpen-enabled is non-zero. In the scenario render 1280 x 720, display 1920 x 1080, both
sub-stages on, it returns true, `vkpt_fsr_do` returns `VK_SUCCESS` and dispatches the upscale
kernel and then the sharpen kernel `FSR_RCAS_AFTER_EASU`, and the image handed to the final
blit is `VKPT_IMG_FSR_RCAS_OUTPUT`. -/
theorem C7_is_enabled_true_when_upscaling :
    (∀ (cv : Cvars) (qvk : Qvk),
      cv.cvar_flt_fsr_enable = 1 →
      qvk.extent_render.width < qvk.extent_unscaled.width →
      qvk.extent_render.height < qvk.extent_unscaled.height →
      (cv.cvar_flt_fsr_easu ≠ 0 ∨ cv.cvar_flt_fsr_rcas ≠ 0) →
      vkpt_fsr_is_enabled cv qvk = true)
    ∧ vkpt_fsr_is_enabled ⟨1, 1, 1⟩ ⟨⟨1280, 720⟩, ⟨1920, 1080⟩⟩ = true
    ∧ (vkpt_fsr_do ⟨1, 1, 1⟩ ⟨⟨1280, 720⟩, ⟨1920, 1080⟩⟩).1 = VkResult.VK_SUCCESS
    ∧ (∃ i j, i < j
        ∧ upscaleDispatchAt (recorded ⟨1, 1, 1⟩ ⟨⟨1280, 720⟩, ⟨1920, 1080⟩⟩) i
        ∧ dispatchedPipeline (recorded ⟨1, 1, 1⟩ ⟨⟨1280, 720⟩, ⟨1920, 1080⟩⟩) j
            = some FSR_RCAS_AFTER_EASU)
    ∧ dispatchGrids (recorded ⟨1, 1, 1⟩ ⟨⟨1280, 720⟩, ⟨1920, 1080⟩⟩)
        = [(120, 68, 1), (120, 68, 1)]
    ∧ vkpt_fsr_final_blit (fun img _ => img) ⟨1, 1, 1⟩ ⟨⟨1280, 720⟩, ⟨1920, 1080⟩⟩
        = VkptImg.VKPT_IMG_FSR_RCAS_OUTPUT := by
  refine ⟨?_, by decide, by decide, ⟨4, 10, by decide, by decide, by decide⟩, by decide,
    by decide⟩
  intro cv qvk he hw hh hs
  rw [is_enabled_eq_true_iff]
  refine ⟨by rw [he]; decide, ?_, hs⟩
  rintro ⟨_, h | h⟩ <;> omega

/-- Witness for C7: the scenario render 1280 x 720, display 1920 x 1080 under enable = 1 with
both sub-stages on, through the general statement. -/
theorem C7_is_enabled_true_when_upscaling_witness :
    vkpt_fsr_is_enabled ⟨1, 1, 1⟩ ⟨⟨1280, 720⟩, ⟨1920, 1080⟩⟩ = true :=
  C7_is_enabled_true_when_upscaling.1 ⟨1, 1, 1⟩ ⟨⟨1280, 720⟩, ⟨1920, 1080⟩⟩ rfl
    (by decide) (by decide) (Or.inl (by decide))

/-- Claim C8: `vkpt_fsr_final_blit` hands the external blit `VKPT_IMG_FSR_RCAS_OUTPUT` when
sharpen-enabled is non-zero and `VKPT_IMG_FSR_EASU_OUTPUT` otherwise, in both cases with
`qvk.extent_unscaled`, and returns what the external blit returns. -/
theorem C8_final_blit_selects_output {α : Type} (blit : VkptImg → VkExtent2D → α)
    (cv : Cvars) (qvk : Qvk) :
    (cv.cvar_flt_fsr_rcas ≠ 0 →
      vkpt_fsr_final_blit blit cv qvk
        = blit VkptImg.VKPT_IMG_FSR_RCAS_OUTPUT qvk.extent_unscaled)
    ∧ (cv.cvar_flt_fsr_rcas = 0 →
      vkpt_fsr_final_blit blit cv qvk
        = blit VkptImg.VKPT_IMG_FSR_EASU_OUTPUT qvk.extent_unscaled) := by
  constructor <;> intro h <;> simp [vkpt_fsr_final_blit, h]

/-- Witness for C8: with sharpening off, a blit that reports its two arguments receives
`VKPT_IMG_FSR_EASU_OUTPUT` and the display extent 1920 x 1080. -/
theorem C8_final_blit_selects_output_witness :
    vkpt_fsr_final_blit (fun img ext => (img, ext)) ⟨1, 1, 0⟩ ⟨⟨1280, 720⟩, ⟨1920, 1080⟩⟩
      = (VkptImg.VKPT_IMG_FSR_EASU_OUTPUT, ⟨1920, 1080⟩) :=
  (C8_final_blit_selects_output (fun img ext => (img, ext)) ⟨1, 1, 0⟩
    ⟨⟨1280, 720⟩, ⟨1920, 1080⟩⟩).2 rfl

/-- Claim C9: `vkpt_fsr_needs_upscale` returns true if and only if upscale-enabled is 0, which
is if and only if `vkpt_fsr_do` records no upscale dispatch; two global states that agree on
upscale-enabled give the same result, whatever their enable setting, sharpen-enabled and
extents are. -/
theorem C9_needs_upscale (cv : Cvars) (qvk : Qvk) :
    (vkpt_fsr_needs_upscale cv qvk = true ↔ cv.cvar_flt_fsr_easu = 0)
    ∧ (vkpt_fsr_needs_upscale cv qvk = true ↔ ¬ ∃ i, upscaleDispatchAt (recorded cv qvk) i)
    ∧ (∀ (cv2 : Cvars) (qvk2 : Qvk), cv2.cvar_flt_fsr_easu = cv.cvar_flt_fsr_easu →
        vkpt_fsr_needs_upscale cv2 qvk2 = vkpt_fsr_needs_upscale cv qvk) := by
  refine ⟨by simp [vkpt_fsr_needs_upscale], ?_, ?_⟩
  · constructor
    · rintro h ⟨i, hi⟩
      exact ((upscaleDispatchAt_recorded cv qvk i).1 hi).1 (by simpa [vkpt_fsr_needs_upscale] using h)
    · intro h
      by_contra hn
      have he : cv.cvar_flt_fsr_easu ≠ 0 := by simpa [vkpt_fsr_needs_upscale] using hn
      exact h ⟨4, (upscaleDispatchAt_recorded cv qvk 4).2 ⟨he, rfl⟩⟩
  · intro cv2 qvk2 h
    simp [vkpt_fsr_needs_upscale, h]

/-- Witness for C9: two global states with upscale-enabled = 0 that differ in the enable
setting, in sharpen-enabled and in both extents give the same result. -/
theorem C9_needs_upscale_witness :
    vkpt_fsr_needs_upscale ⟨2, 0, 0⟩ ⟨⟨640, 480⟩, ⟨640, 480⟩⟩
      = vkpt_fsr_needs_upscale ⟨1, 0, 1⟩ ⟨⟨1280, 720⟩, ⟨1920, 1080⟩⟩ :=
  (C9_needs_upscale ⟨1, 0, 1⟩ ⟨⟨1280, 720⟩, ⟨1920, 1080⟩⟩).2.2 ⟨2, 0, 0⟩
    ⟨⟨640, 480⟩, ⟨640, 480⟩⟩ rfl

/-- Claim C10: whenever `vkpt_fsr_is_enabled` returns true, the image that
`vkpt_fsr_final_blit` hands to the external blit is the output image of the last kernel that
`vkpt_fsr_do` dispatches for the same global state, and the command right after that dispatch
is the write-to-read barrier on this image. And there is a global state with upscale-enabled
= 0 and sharpen-enabled = 0, for which `vkpt_fsr_is_enabled` returns false, where the final
blit selects `VKPT_IMG_FSR_EASU_OUTPUT` although `vkpt_fsr_do` records no dispatch. -/
theorem C10_final_image_written_by_last_dispatch :
    (∀ (cv : Cvars) (qvk : Qvk), vkpt_fsr_is_enabled cv qvk = true →
      ∃ i slot, dispatchedPipeline (recorded cv qvk) i = some slot
        ∧ (∀ (j : Nat) (c : Cmd), i < j → (recorded cv qvk)[j]? = some c → isDispatch c = false)
        ∧ kernelOutput slot = some (vkpt_fsr_final_blit (fun img _ => img) cv qvk)
        ∧ writeReadBarrierAt (recorded cv qvk) (i + 1)
            (vkpt_fsr_final_blit (fun img _ => img) cv qvk))
    ∧ (∃ (cv : Cvars) (qvk : Qvk),
      cv.cvar_flt_fsr_easu = 0 ∧ cv.cvar_flt_fsr_rcas = 0
        ∧ vkpt_fsr_is_enabled cv qvk = false
        ∧ vkpt_fsr_final_blit (fun img _ => img) cv qvk = VkptImg.VKPT_IMG_FSR_EASU_OUTPUT
        ∧ ∀ (j : Nat) (c : Cmd), (recorded cv qvk)[j]? = some c → isDispatch c = false) := by
  constructor
  · intro cv qvk hen
    have hs := ((is_enabled_eq_true_iff cv qvk).1 hen).2.2
    have hlast : ∀ (i : Nat),
        (cv.cvar_flt_fsr_rcas ≠ 0 → i = (if cv.cvar_flt_fsr_easu ≠ 0 then 10 else 4)) →
        (cv.cvar_flt_fsr_rcas = 0 → i = 4) →
        ∀ (j : Nat) (c : Cmd), i < j → (recorded cv qvk)[j]? = some c →
          isDispatch c = false := by
      intro i h1 h2 j c hij hc
      cases hd : isDispatch c with
      | false => rfl
      | true =>
        exfalso
        rcases (isDispatch_recorded cv qvk j c hc).1 hd with ⟨_, hj⟩ | ⟨hr, hj⟩
        · by_cases hr : cv.cvar_flt_fsr_rcas = 0
          · have := h2 hr
            omega
          · have := h1 hr
            split at this <;> omega
        · have := h1 hr
          omega
    by_cases hr : cv.cvar_flt_fsr_rcas = 0
    · have he : cv.cvar_flt_fsr_easu ≠ 0 := by
        rcases hs with h | h
        · exact h
        · exact absurd hr h
      refine ⟨4, FSR_EASU, ?_, hlast 4 (fun h => absurd hr h) (fun _ => rfl), ?_, ?_⟩
      · rw [dispatchedPipeline_recorded, if_pos ⟨he, rfl⟩]
      · simp [vkpt_fsr_final_blit, hr, kernelOutput]
      · have hb := (writeReadBarrierAt_recorded cv qvk).1 he
        simpa [vkpt_fsr_final_blit, hr] using hb
    · refine ⟨if cv.cvar_flt_fsr_easu ≠ 0 then 10 else 4,
        if cv.cvar_flt_fsr_easu ≠ 0 then FSR_RCAS_AFTER_EASU else FSR_RCAS_AFTER_TAAU,
        ?_, hlast _ (fun _ => rfl) (fun h => absurd h hr), ?_, ?_⟩
      · rw [dispatchedPipeline_recorded]
        by_cases he : cv.cvar_flt_fsr_easu = 0 <;> simp [he, hr]
      · by_cases he : cv.cvar_flt_fsr_easu = 0 <;>
          simp [vkpt_fsr_final_blit, hr, he, kernelOutput, FSR_EASU, FSR_RCAS_AFTER_EASU,
            FSR_RCAS_AFTER_TAAU]
      · have hb := (writeReadBarrierAt_recorded cv qvk).2 hr
        by_cases he : cv.cvar_flt_fsr_easu = 0 <;>
          simpa [vkpt_fsr_final_blit, hr, he] using hb
  · refine ⟨⟨2, 0, 0⟩, ⟨⟨1280, 720⟩, ⟨1920, 1080⟩⟩, rfl, rfl, by decide, by decide, ?_⟩
    intro j c hc
    cases hd : isDispatch c with
    | false => rfl
    | true =>
      have h := (isDispatch_recorded _ _ j c hc).1 hd
      simp at h

/-- Witness for C10: enable = 2, upscale on, sharpen off, render 1280 x 720, display
1920 x 1080: the stage is enabled, and the final blit reads the image written by the last
dispatch. -/
theorem C10_final_image_written_by_last_dispatch_witness :
    ∃ i slot, dispatchedPipeline (recorded ⟨2, 1, 0⟩ ⟨⟨1280, 720⟩, ⟨1920, 1080⟩⟩) i = some slot
      ∧ (∀ (j : Nat) (c : Cmd), i < j → (recorded ⟨2, 1, 0⟩ ⟨⟨1280, 720⟩, ⟨1920, 1080⟩⟩)[j]? = some c →
          isDispatch c = false)
      ∧ kernelOutput slot = some (vkpt_fsr_final_blit (fun img _ => img) ⟨2, 1, 0⟩
          ⟨⟨1280, 720⟩, ⟨1920, 1080⟩⟩)
      ∧ writeReadBarrierAt (recorded ⟨2, 1, 0⟩ ⟨⟨1280, 720⟩, ⟨1920, 1080⟩⟩) (i + 1)
          (vkpt_fsr_final_blit (fun img _ => img) ⟨2, 1, 0⟩ ⟨⟨1280, 720⟩, ⟨1920, 1080⟩⟩) :=
  C10_final_image_written_by_last_dispatch.1 ⟨2, 1, 0⟩ ⟨⟨1280, 720⟩, ⟨1920, 1080⟩⟩ (by decide)

/-! ## Pipeline teardown: theorems -/

/-- The handles that one call of `vkpt_fsr_destroy_pipelines` hands to `vkDestroyPipeline`. -/
theorem destroyed_eq (s : FsrState) :
    (vkpt_fsr_destroy_pipelines s).destroyed
      = [s.pipeline_fsr FSR_EASU, s.pipeline_fsr FSR_RCAS_AFTER_EASU,
          s.pipeline_fsr FSR_RCAS_AFTER_TAAU] := by
  simp [vkpt_fsr_destroy_pipelines, FSR_NUM_PIPELINES, FSR_EASU, FSR_RCAS_AFTER_EASU,
    FSR_RCAS_AFTER_TAAU, List.range_succ]

/-- Claim C2 as stated fails: when `pipeline_fsr` holds the handles 1, 2, 3 (as stored by a
successful `vkCreateComputePipelines`), the first call hands 1, 2, 3 to `vkDestroyPipeline`
and the second call hands the same three handles to it again. -/
theorem C2_counterexample :
    ¬ ∀ (s : FsrState),
      (vkpt_fsr_destroy_pipelines s).result = VkResult.VK_SUCCESS
      ∧ (vkpt_fsr_destroy_pipelines (vkpt_fsr_destroy_pipelines s).state).result
          = VkResult.VK_SUCCESS
      ∧ ∀ h ∈ (vkpt_fsr_destroy_pipelines s).destroyed, h ≠ VK_NULL_HANDLE →
          h ∉ (vkpt_fsr_destroy_pipelines (vkpt_fsr_destroy_pipelines s).state).destroyed := by
  intro h
  exact (h ⟨fun i => i + 1⟩).2.2 1 (by decide) (by decide) (by decide)

/-- Claim C2, amended: of two calls of `vkpt_fsr_destroy_pipelines` in a row, both return
`VK_SUCCESS`; the first call leaves the three stored handles as they were and hands them to
`vkDestroyPipeline` in slot order, and the second call hands the same three handles to it
again. So no handle released by the first call is handed to the device a second time exactly
when all three stored handles were `VK_NULL_HANDLE` before the first call. -/
theorem C2_destroy_twice (s : FsrState) :
    (vkpt_fsr_destroy_pipelines s).result = VkResult.VK_SUCCESS
    ∧ (vkpt_fsr_destroy_pipelines (vkpt_fsr_destroy_pipelines s).state).result
        = VkResult.VK_SUCCESS
    ∧ (vkpt_fsr_destroy_pipelines s).state.pipeline_fsr = s.pipeline_fsr
    ∧ (vkpt_fsr_destroy_pipelines s).destroyed
        = [s.pipeline_fsr FSR_EASU, s.pipeline_fsr FSR_RCAS_AFTER_EASU,
            s.pipeline_fsr FSR_RCAS_AFTER_TAAU]
    ∧ (vkpt_fsr_destroy_pipelines (vkpt_fsr_destroy_pipelines s).state).destroyed
        = (vkpt_fsr_destroy_pipelines s).destroyed
    ∧ ((∀ h ∈ (vkpt_fsr_destroy_pipelines s).destroyed, h ≠ VK_NULL_HANDLE →
          h ∉ (vkpt_fsr_destroy_pipelines (vkpt_fsr_destroy_pipelines s).state).destroyed)
        ↔ ∀ i, i < FSR_NUM_PIPELINES → s.pipeline_fsr i = VK_NULL_HANDLE) := by
  refine ⟨rfl, rfl, rfl, destroyed_eq s, rfl, ?_⟩
  have hst : (vkpt_fsr_destroy_pipelines s).state = s := rfl
  rw [hst, destroyed_eq]
  constructor
  · intro h i hi
    by_contra hne
    have hmem : s.pipeline_fsr i ∈ [s.pipeline_fsr FSR_EASU, s.pipeline_fsr FSR_RCAS_AFTER_EASU,
        s.pipeline_fsr FSR_RCAS_AFTER_TAAU] := by
      have hi3 : i = 0 ∨ i = 1 ∨ i = 2 := by
        unfold FSR_NUM_PIPELINES at hi
        omega
      rcases hi3 with rfl | rfl | rfl <;>
        simp [FSR_EASU, FSR_RCAS_AFTER_EASU, FSR_RCAS_AFTER_TAAU]
    exact h _ hmem hne hmem
  · intro h x hx hne
    exfalso
    apply hne
    simp only [List.mem_cons, List.mem_singleton, List.mem_nil_iff, or_false] at hx
    rcases hx with rfl | rfl | rfl
    · exact h _ (by decide)
    · exact h _ (by decide)
    · exact h _ (by decide)

/-- Witness for C2 (amended): with nothing created all three stored handles are
`VK_NULL_HANDLE`, and the second call hands only null handles to the device. -/
theorem C2_destroy_twice_witness :
    (vkpt_fsr_destroy_pipelines
      (vkpt_fsr_destroy_pipelines ⟨fun _ => VK_NULL_HANDLE⟩).state).destroyed
      = [VK_NULL_HANDLE, VK_NULL_HANDLE, VK_NULL_HANDLE] :=
  (C2_destroy_twice ⟨fun _ => VK_NULL_HANDLE⟩).2.2.2.2.1.trans
    (C2_destroy_twice ⟨fun _ => VK_NULL_HANDLE⟩).2.2.2.1

end Q2RTX
